import Mathlib

/-!
Shallow embedding of the Frogger game core from `src/main.rs`.

The Rust source stores sub-cell positions, speeds, offsets and `dt` as `f32`;
here they are modelled as exact rationals (`ℚ`), the idealized arithmetic the
spec describes.  Integer grid quantities stay `Int`.  The `color` field of
`MovingObject` is rendering-only data and is omitted: no game-logic code reads
it.  Object placement at lane initialization is randomized in the source
(`init_lanes` uses `rand::thread_rng`); it is modelled by quantifying over
arbitrary car/log lists wherever an initial or reset state appears.
-/

-- ===========================================================================
-- Constants (src/main.rs lines 11-34)
-- ===========================================================================

def SCREEN_WIDTH : Int := 640
def SCREEN_HEIGHT : Int := 480
def CELL_SIZE : Int := 32
def GRID_COLS : Int := SCREEN_WIDTH / CELL_SIZE   -- 20
def GRID_ROWS : Int := SCREEN_HEIGHT / CELL_SIZE  -- 15

def FROG_START_ROW : Int := GRID_ROWS - 1
def FROG_START_COL : Int := GRID_COLS / 2

def INITIAL_LIVES : Int := 3
def GOAL_COUNT : Nat := 5

def RIVER_START : Int := 1
def RIVER_END : Int := 5
def ROAD_START : Int := 7
def ROAD_END : Int := 12

-- ===========================================================================
-- Direction and MovingObject (src/main.rs lines 48-114)
-- ===========================================================================

inductive Direction where
  | Left : Direction
  | Right : Direction
deriving DecidableEq, Repr

def Direction.multiplier : Direction → ℚ
  | Direction.Left => -1
  | Direction.Right => 1

structure MovingObject where
  x : ℚ
  y : Int        -- row (grid-based); the source field is `y`
  width : Int    -- in cells
  speed : ℚ
  direction : Direction
deriving DecidableEq, Repr

structure Rectangle where
  x : ℚ
  y : ℚ
  width : ℚ
  height : ℚ
deriving DecidableEq, Repr

/-- `MovingObject::update` (lines 85-104): advance by `speed * dir * dt`, then
wrap around the screen. -/
def MovingObject.update (o : MovingObject) (dt : ℚ) : MovingObject :=
  let x1 : ℚ := o.x + o.speed * o.direction.multiplier * dt
  let screen_width : ℚ := (SCREEN_WIDTH : ℚ)
  let obj_width : ℚ := ((o.width * CELL_SIZE : Int) : ℚ)
  match o.direction with
  | Direction.Right =>
      if x1 > screen_width then { o with x := -obj_width } else { o with x := x1 }
  | Direction.Left =>
      if x1 + obj_width < 0 then { o with x := screen_width } else { o with x := x1 }

/-- `MovingObject::get_rect` (lines 106-113). -/
def MovingObject.get_rect (o : MovingObject) : Rectangle :=
  { x := o.x
    y := ((o.y * CELL_SIZE : Int) : ℚ)
    width := ((o.width * CELL_SIZE : Int) : ℚ)
    height := (CELL_SIZE : ℚ) }

/-- `check_collision_recs` (lines 404-409): strict axis-aligned overlap test. -/
def check_collision_recs (r1 r2 : Rectangle) : Bool :=
  decide (r1.x < r2.x + r2.width) && decide (r1.x + r1.width > r2.x) &&
  decide (r1.y < r2.y + r2.height) && decide (r1.y + r1.height > r2.y)

-- ===========================================================================
-- Frog (src/main.rs lines 116-192)
-- ===========================================================================

structure Frog where
  x : Int            -- grid column
  y : Int            -- grid row
  riding_offset : ℚ  -- x offset when on a log
  is_riding : Bool
deriving DecidableEq, Repr

def Frog.new : Frog :=
  { x := FROG_START_COL, y := FROG_START_ROW, riding_offset := 0, is_riding := false }

def Frog.reset (_f : Frog) : Frog :=
  { x := FROG_START_COL, y := FROG_START_ROW, riding_offset := 0, is_riding := false }

def Frog.get_pixel_x (f : Frog) : ℚ :=
  ((f.x * CELL_SIZE : Int) : ℚ) + f.riding_offset

def Frog.get_pixel_y (f : Frog) : ℚ :=
  ((f.y * CELL_SIZE : Int) : ℚ)

def Frog.get_rect (f : Frog) : Rectangle :=
  { x := f.get_pixel_x, y := f.get_pixel_y
    width := (CELL_SIZE : ℚ), height := (CELL_SIZE : ℚ) }

def Frog.move_up (f : Frog) : Frog :=
  if f.y > 0 then { f with y := f.y - 1, riding_offset := 0 } else f

def Frog.move_down (f : Frog) : Frog :=
  if f.y < GRID_ROWS - 1 then { f with y := f.y + 1, riding_offset := 0 } else f

def Frog.move_left (f : Frog) : Frog :=
  let new_x : ℚ := f.get_pixel_x - (CELL_SIZE : ℚ)
  if new_x ≥ 0 then
    if f.is_riding then { f with riding_offset := f.riding_offset - (CELL_SIZE : ℚ) }
    else { f with x := f.x - 1 }
  else f

def Frog.move_right (f : Frog) : Frog :=
  let new_x : ℚ := f.get_pixel_x + (CELL_SIZE : ℚ)
  if new_x < ((SCREEN_WIDTH - CELL_SIZE : Int) : ℚ) then
    if f.is_riding then { f with riding_offset := f.riding_offset + (CELL_SIZE : ℚ) }
    else { f with x := f.x + 1 }
  else f

-- ===========================================================================
-- GoalSlot and GameState (src/main.rs lines 194-330)
-- ===========================================================================

structure GoalSlot where
  x : Int         -- grid column
  occupied : Bool
deriving DecidableEq, Repr

structure GameState where
  frog : Frog
  cars : List MovingObject
  logs : List MovingObject
  goals : List GoalSlot
  lives : Int
  score : Int
  game_over : Bool
  won : Bool
deriving DecidableEq, Repr

/-- `GameState::init_goals` (lines 227-237): 5 slots evenly spaced, unoccupied. -/
def init_goals : List GoalSlot :=
  let spacing : Int := GRID_COLS / ((GOAL_COUNT : Int) + 1)
  (List.range GOAL_COUNT).map (fun i => { x := spacing * ((i : Int) + 1), occupied := false })

/-- `GameState::new` (lines 211-225); lane randomness becomes the `cars`/`logs`
parameters. -/
def GameState.new (cars logs : List MovingObject) : GameState :=
  { frog := Frog.new, cars := cars, logs := logs, goals := init_goals
    lives := INITIAL_LIVES, score := 0, game_over := false, won := false }

/-- `GameState::reset` (lines 284-292); fresh randomized lanes become the
`cars`/`logs` parameters. -/
def GameState.reset (s : GameState) (cars logs : List MovingObject) : GameState :=
  { frog := s.frog.reset, lives := INITIAL_LIVES, score := 0
    game_over := false, won := false
    cars := cars, logs := logs, goals := init_goals }

/-- `GameState::kill_frog` (lines 294-301). -/
def GameState.kill_frog (s : GameState) : GameState :=
  let s1 := { s with lives := s.lives - 1 }
  if s1.lives ≤ 0 then { s1 with game_over := true }
  else { s1 with frog := s1.frog.reset }

/-- Pixel center of a goal slot, as computed at line 309:
`(goal.x * CELL_SIZE + CELL_SIZE / 2) as f32`. -/
def goalCenter (g : GoalSlot) : ℚ :=
  ((g.x * CELL_SIZE + CELL_SIZE / 2 : Int) : ℚ)

/-- Pixel center of the frog, as computed at line 305:
`frog.get_pixel_x() + (CELL_SIZE / 2) as f32`. -/
def frogCenter (s : GameState) : ℚ :=
  s.frog.get_pixel_x + ((CELL_SIZE / 2 : Int) : ℚ)

/-- The per-slot test of the loop body of `check_goal_reached` (lines 308-312):
the slot is unoccupied and the distance of centers is strictly below
`CELL_SIZE as f32 * 0.8` (the two nested `if`s of the source, as one
conjunction). -/
def eligibleSlot (fc : ℚ) (g : GoalSlot) : Prop :=
  g.occupied = false ∧ |fc - goalCenter g| < (CELL_SIZE : ℚ) * (4 / 5)

instance (fc : ℚ) (g : GoalSlot) : Decidable (eligibleSlot fc g) := by
  unfold eligibleSlot; infer_instance

/-- The goal-scanning loop of `check_goal_reached` (lines 307-325): walk the
slots in creation order; at the first unoccupied slot whose center is within
`CELL_SIZE * 0.8` of the frog center, mark it occupied and stop (`some`);
if the loop falls through, report `none` (missed). -/
def claimGoals (frog_center : ℚ) : List GoalSlot → Option (List GoalSlot)
  | [] => none
  | g :: rest =>
      if eligibleSlot frog_center g then
        some ({ g with occupied := true } :: rest)
      else
        (claimGoals frog_center rest).map (fun gs => g :: gs)

/-- `GameState::check_goal_reached` (lines 303-330). -/
def GameState.check_goal_reached (s : GameState) : GameState :=
  if s.frog.y = 0 then
    match claimGoals (frogCenter s) s.goals with
    | some goals1 =>
        let s1 := { s with goals := goals1, score := s.score + 100, frog := s.frog.reset }
        if goals1.all (fun g => g.occupied) then { s1 with won := true, game_over := true }
        else s1
    | none => s.kill_frog
  else s

/-- Loop-body predicate used by the road and river scans of `GameState::update`
(lines 350-353 and 365-368): same row and rectangles overlap. -/
def collidesOnRow (frog_rect : Rectangle) (frog_row : Int) (o : MovingObject) : Bool :=
  (o.y == frog_row) && check_collision_recs frog_rect o.get_rect

/-- The collision/riding/goal phase of `GameState::update` (lines 345-396),
run after all objects have been advanced. -/
def GameState.collision_phase (s : GameState) (dt : ℚ) : GameState :=
  let frog_rect := s.frog.get_rect
  let frog_row := s.frog.y
  if ROAD_START ≤ frog_row ∧ frog_row ≤ ROAD_END ∧
      s.cars.any (collidesOnRow frog_rect frog_row) = true then
    s.kill_frog
  else if RIVER_START ≤ frog_row ∧ frog_row ≤ RIVER_END then
    match s.logs.find? (collidesOnRow frog_rect frog_row) with
    | none => s.kill_frog
    | some log =>
        let offset1 := s.frog.riding_offset + log.speed * log.direction.multiplier * dt
        let s1 := { s with frog := { s.frog with is_riding := true, riding_offset := offset1 } }
        let frog_x := s1.frog.get_pixel_x
        if frog_x < 0 ∨ frog_x > ((SCREEN_WIDTH - CELL_SIZE : Int) : ℚ) then
          s1.kill_frog
        else
          s1.check_goal_reached
  else
    let s2 := { s with frog := { s.frog with is_riding := false, riding_offset := 0 } }
    s2.check_goal_reached

/-- The object-advancement phase of `GameState::update` (lines 337-343):
every car and every log advances by `dt`. -/
def GameState.advanceObjects (s : GameState) (dt : ℚ) : GameState :=
  { s with cars := s.cars.map (fun c => c.update dt),
           logs := s.logs.map (fun l => l.update dt) }

/-- `GameState::update` (lines 332-397): no-op when over; otherwise advance
every car and log, then run the collision/riding/goal phase on the advanced
state. -/
def GameState.update (s : GameState) (dt : ℚ) : GameState :=
  if s.game_over = true then s
  else GameState.collision_phase (s.advanceObjects dt) dt

-- ===========================================================================
-- Host-level step relation (main loop, lines 626-649)
-- ===========================================================================

/-- One host action: a move command on the frog, a tick, or a full reset
(the reset's fresh randomized lanes are existentially arbitrary lists). -/
inductive Step : GameState → GameState → Prop where
  | moveUp (s : GameState) : Step s { s with frog := s.frog.move_up }
  | moveDown (s : GameState) : Step s { s with frog := s.frog.move_down }
  | moveLeft (s : GameState) : Step s { s with frog := s.frog.move_left }
  | moveRight (s : GameState) : Step s { s with frog := s.frog.move_right }
  | tick (s : GameState) (dt : ℚ) : Step s (s.update dt)
  | reset (s : GameState) (cars logs : List MovingObject) : Step s (s.reset cars logs)

/-- States reachable from a fresh game (any randomized lane placement). -/
inductive Reachable : GameState → Prop where
  | init (cars logs : List MovingObject) : Reachable (GameState.new cars logs)
  | step {s t : GameState} : Reachable s → Step s t → Reachable t

-- ===========================================================================
-- Derived definitions used by the statements below
-- ===========================================================================

/-- Pixel width of a moving object, the `obj_width` of lines 90 and 99:
`(width * CELL_SIZE) as f32`. -/
def objectWidthPixels (o : MovingObject) : ℚ :=
  ((o.width * CELL_SIZE : Int) : ℚ)

/-- A finite sequence of `MovingObject::update` calls. -/
def updateMany (o : MovingObject) : List ℚ → MovingObject
  | [] => o
  | dt :: rest => updateMany (o.update dt) rest

/-- The spec's state invariant: a won game is over, and a game still playing
has at least one life left. -/
def GameInv (s : GameState) : Prop :=
  (s.won = true → s.game_over = true) ∧ (s.game_over = false → 1 ≤ s.lives)

/-- A concrete playing state with the frog on the goal row straight above goal
slot 0 (column 3). -/
def goalDemoState : GameState :=
  { frog := { x := 3, y := 0, riding_offset := 0, is_riding := false }
    cars := [], logs := [], goals := init_goals
    lives := 3, score := 0, game_over := false, won := false }

/-- A concrete log on river row 3 whose rectangle overlaps the start-column
frog. -/
def demoLog : MovingObject :=
  { x := 320, y := 3, width := 5, speed := 40, direction := Direction.Right }

/-- A concrete playing state with the frog on river row 3 above `demoLog`. -/
def riverDemoState : GameState :=
  { frog := { x := 10, y := 3, riding_offset := 0, is_riding := false }
    cars := [], logs := [demoLog], goals := init_goals
    lives := 3, score := 0, game_over := false, won := false }

/-- A concrete finished (lost) state. -/
def overDemoState : GameState :=
  { frog := Frog.new, cars := [], logs := [demoLog], goals := init_goals
    lives := 0, score := 100, game_over := true, won := false }

/-- A concrete playing state with the frog on the safe row 6. -/
def safeDemoState : GameState :=
  { frog := { x := 10, y := 6, riding_offset := 0, is_riding := true }
    cars := [], logs := [demoLog], goals := init_goals
    lives := 3, score := 0, game_over := false, won := false }

/-- A concrete moving object used to exercise the wraparound bounds. -/
def demoCar : MovingObject :=
  { x := 600, y := 7, width := 2, speed := 80, direction := Direction.Right }

-- ===========================================================================
-- Helper lemmas: field projections of the state operations
-- ===========================================================================

theorem kill_frog_cars (s : GameState) : (s.kill_frog).cars = s.cars := by
  simp only [GameState.kill_frog]; split <;> rfl

theorem kill_frog_logs (s : GameState) : (s.kill_frog).logs = s.logs := by
  simp only [GameState.kill_frog]; split <;> rfl

theorem kill_frog_goals (s : GameState) : (s.kill_frog).goals = s.goals := by
  simp only [GameState.kill_frog]; split <;> rfl

theorem kill_frog_score (s : GameState) : (s.kill_frog).score = s.score := by
  simp only [GameState.kill_frog]; split <;> rfl

theorem kill_frog_won (s : GameState) : (s.kill_frog).won = s.won := by
  simp only [GameState.kill_frog]; split <;> rfl

theorem kill_frog_lives (s : GameState) : (s.kill_frog).lives = s.lives - 1 := by
  simp only [GameState.kill_frog]; split <;> rfl

theorem kill_frog_riding_false (s : GameState) (h : s.frog.is_riding = false) :
    (s.kill_frog).frog.is_riding = false := by
  simp only [GameState.kill_frog]; split
  · exact h
  · rfl

theorem check_goal_cars (s : GameState) : (s.check_goal_reached).cars = s.cars := by
  unfold GameState.check_goal_reached
  split
  · split
    · split <;> rfl
    · exact kill_frog_cars s
  · rfl

theorem check_goal_logs (s : GameState) : (s.check_goal_reached).logs = s.logs := by
  unfold GameState.check_goal_reached
  split
  · split
    · split <;> rfl
    · exact kill_frog_logs s
  · rfl

theorem check_goal_of_row_ne (s : GameState) (h : s.frog.y ≠ 0) :
    s.check_goal_reached = s := by
  unfold GameState.check_goal_reached
  exact if_neg h

theorem check_goal_riding_false (s : GameState) (h : s.frog.is_riding = false) :
    (s.check_goal_reached).frog.is_riding = false := by
  unfold GameState.check_goal_reached
  split
  · split
    · split <;> rfl
    · exact kill_frog_riding_false s h
  · exact h

-- ===========================================================================
-- Helper lemmas: the goal-scanning loop
-- ===========================================================================

theorem claimGoals_eq_none {fc : ℚ} {l : List GoalSlot} :
    claimGoals fc l = none ↔ ∀ g ∈ l, ¬ eligibleSlot fc g := by
  induction l with
  | nil => simp [claimGoals]
  | cons g rest ih =>
      by_cases h : eligibleSlot fc g
      · simp [claimGoals, h]
      · simp [claimGoals, h, Option.map_eq_none', ih]

theorem claimGoals_first {fc : ℚ} {l : List GoalSlot} {i : Nat} (hi : i < l.length)
    (he : eligibleSlot fc (l.get ⟨i, hi⟩))
    (hmin : ∀ j (hj : j < l.length), j < i → ¬ eligibleSlot fc (l.get ⟨j, hj⟩)) :
    claimGoals fc l = some (l.set i { l.get ⟨i, hi⟩ with occupied := true }) := by
  induction l generalizing i with
  | nil => simp at hi
  | cons g rest ih =>
      cases i with
      | zero =>
          simp only [List.get] at he
          simp [claimGoals, he]
      | succ k =>
          have hg : ¬ eligibleSlot fc g := by
            have := hmin 0 (by simp) (Nat.succ_pos k)
            simpa using this
          have hk : k < rest.length := by simpa using hi
          have he' : eligibleSlot fc (rest.get ⟨k, hk⟩) := by
            simpa using he
          have hmin' : ∀ j (hj : j < rest.length), j < k →
              ¬ eligibleSlot fc (rest.get ⟨j, hj⟩) := by
            intro j hj hjk
            have := hmin (j + 1) (by simpa using Nat.succ_lt_succ hj)
              (Nat.succ_lt_succ hjk)
            simpa using this
          simp [claimGoals, hg, ih hk he' hmin']

theorem kill_frog_eq (s : GameState) :
    s.kill_frog =
      if s.lives - 1 ≤ 0 then { s with lives := s.lives - 1, game_over := true }
      else { s with lives := s.lives - 1, frog := s.frog.reset } := rfl

theorem check_goal_eq_claim (s : GameState) (h0 : s.frog.y = 0) {gs : List GoalSlot}
    (hc : claimGoals (frogCenter s) s.goals = some gs) :
    s.check_goal_reached =
      (if gs.all (fun g => g.occupied) = true
        then { s with goals := gs, score := s.score + 100, frog := s.frog.reset,
                      won := true, game_over := true }
        else { s with goals := gs, score := s.score + 100, frog := s.frog.reset }) := by
  unfold GameState.check_goal_reached
  rw [if_pos h0, hc]

theorem check_goal_eq_miss (s : GameState) (h0 : s.frog.y = 0)
    (hc : claimGoals (frogCenter s) s.goals = none) :
    s.check_goal_reached = s.kill_frog := by
  unfold GameState.check_goal_reached
  rw [if_pos h0, hc]

theorem advanceObjects_frog (s : GameState) (dt : ℚ) :
    (s.advanceObjects dt).frog = s.frog := rfl

theorem advanceObjects_goals (s : GameState) (dt : ℚ) :
    (s.advanceObjects dt).goals = s.goals := rfl

theorem advanceObjects_lives (s : GameState) (dt : ℚ) :
    (s.advanceObjects dt).lives = s.lives := rfl

theorem advanceObjects_score (s : GameState) (dt : ℚ) :
    (s.advanceObjects dt).score = s.score := rfl

theorem advanceObjects_game_over (s : GameState) (dt : ℚ) :
    (s.advanceObjects dt).game_over = s.game_over := rfl

theorem advanceObjects_won (s : GameState) (dt : ℚ) :
    (s.advanceObjects dt).won = s.won := rfl

theorem advanceObjects_cars (s : GameState) (dt : ℚ) :
    (s.advanceObjects dt).cars = s.cars.map (fun c => c.update dt) := rfl

theorem advanceObjects_logs (s : GameState) (dt : ℚ) :
    (s.advanceObjects dt).logs = s.logs.map (fun l => l.update dt) := rfl

theorem update_eq_phase (s : GameState) (dt : ℚ) (h : s.game_over = false) :
    s.update dt = (s.advanceObjects dt).collision_phase dt := by
  unfold GameState.update
  rw [if_neg (by simp [h])]

-- ===========================================================================
-- Helper lemmas: the state invariant and how the game can end
-- ===========================================================================

theorem kill_frog_inv {s : GameState} (h : GameInv s) : GameInv s.kill_frog := by
  rw [kill_frog_eq]
  by_cases hc : s.lives - 1 ≤ 0
  · rw [if_pos hc]
    exact ⟨fun _ => rfl, fun hf => by simp at hf⟩
  · rw [if_neg hc]
    exact ⟨h.1, fun _ => by show (1:Int) ≤ s.lives - 1; omega⟩

theorem check_goal_inv {s : GameState} (h : GameInv s) : GameInv s.check_goal_reached := by
  by_cases h0 : s.frog.y = 0
  · cases hc : claimGoals (frogCenter s) s.goals with
    | none =>
        rw [check_goal_eq_miss s h0 hc]
        exact kill_frog_inv h
    | some gs =>
        rw [check_goal_eq_claim s h0 hc]
        by_cases hall : gs.all (fun g => g.occupied) = true
        · rw [if_pos hall]
          exact ⟨fun _ => rfl, fun hf => by simp at hf⟩
        · rw [if_neg hall]
          exact ⟨h.1, h.2⟩
  · rw [check_goal_of_row_ne s h0]
    exact h

theorem collision_phase_inv {s : GameState} (dt : ℚ) (h : GameInv s) :
    GameInv (s.collision_phase dt) := by
  simp only [GameState.collision_phase]
  split
  · exact kill_frog_inv h
  · split
    · split
      · exact kill_frog_inv h
      · split
        · exact kill_frog_inv h
        · exact check_goal_inv h
    · exact check_goal_inv h

theorem update_inv {s : GameState} (dt : ℚ) (h : GameInv s) : GameInv (s.update dt) := by
  unfold GameState.update
  split
  · exact h
  · exact collision_phase_inv dt h

theorem new_inv (cars logs : List MovingObject) : GameInv (GameState.new cars logs) :=
  ⟨fun hf => by simp [GameState.new] at hf, fun _ => by show (1:Int) ≤ 3; decide⟩

theorem reset_inv (s : GameState) (cars logs : List MovingObject) :
    GameInv (s.reset cars logs) :=
  ⟨fun hf => by simp [GameState.reset] at hf, fun _ => by show (1:Int) ≤ 3; decide⟩

theorem step_inv {s t : GameState} (h : GameInv s) (hst : Step s t) : GameInv t := by
  cases hst with
  | moveUp => exact h
  | moveDown => exact h
  | moveLeft => exact h
  | moveRight => exact h
  | tick dt => exact update_inv dt h
  | reset cars logs => exact reset_inv s cars logs

theorem reachable_inv {s : GameState} (h : Reachable s) : GameInv s := by
  induction h with
  | init cars logs => exact new_inv cars logs
  | step _ hst ih => exact step_inv ih hst

theorem kill_frog_over_char {s : GameState} (hov : s.game_over = false)
    (hwn : s.won = false) (hl : 1 ≤ s.lives)
    (ht : (s.kill_frog).game_over = true) :
    (s.kill_frog).lives = 0 ∧ (s.kill_frog).won = false := by
  rw [kill_frog_eq] at ht ⊢
  by_cases hc : s.lives - 1 ≤ 0
  · rw [if_pos hc]
    refine ⟨?_, hwn⟩
    show s.lives - 1 = 0
    omega
  · rw [if_neg hc] at ht
    exact absurd ht (by simp [hov])

theorem check_goal_over_char {s : GameState} (hov : s.game_over = false)
    (hwn : s.won = false) (hl : 1 ≤ s.lives)
    (ht : (s.check_goal_reached).game_over = true) :
    ((s.check_goal_reached).lives = 0 ∧ (s.check_goal_reached).won = false) ∨
    ((s.check_goal_reached).won = true ∧
      (s.check_goal_reached).goals.all (fun g => g.occupied) = true) := by
  by_cases h0 : s.frog.y = 0
  · cases hc : claimGoals (frogCenter s) s.goals with
    | none =>
        rw [check_goal_eq_miss s h0 hc] at ht ⊢
        exact Or.inl (kill_frog_over_char hov hwn hl ht)
    | some gs =>
        rw [check_goal_eq_claim s h0 hc] at ht ⊢
        by_cases hall : gs.all (fun g => g.occupied) = true
        · rw [if_pos hall]
          exact Or.inr ⟨rfl, hall⟩
        · rw [if_neg hall] at ht
          exact absurd ht (by simp [hov])
  · rw [check_goal_of_row_ne s h0] at ht
    exact absurd ht (by simp [hov])

theorem collision_phase_cases (s : GameState) (dt : ℚ) :
    (∃ u : GameState, s.collision_phase dt = u.kill_frog ∧
        u.won = s.won ∧ u.game_over = s.game_over ∧ u.lives = s.lives ∧
        u.score = s.score ∧ u.cars = s.cars ∧ u.logs = s.logs) ∨
    (∃ u : GameState, s.collision_phase dt = u.check_goal_reached ∧
        u.won = s.won ∧ u.game_over = s.game_over ∧ u.lives = s.lives ∧
        u.score = s.score ∧ u.cars = s.cars ∧ u.logs = s.logs) := by
  simp only [GameState.collision_phase]
  split
  · exact Or.inl ⟨s, rfl, rfl, rfl, rfl, rfl, rfl, rfl⟩
  · split
    · split
      · exact Or.inl ⟨s, rfl, rfl, rfl, rfl, rfl, rfl, rfl⟩
      · split
        · exact Or.inl ⟨_, rfl, rfl, rfl, rfl, rfl, rfl, rfl⟩
        · exact Or.inr ⟨_, rfl, rfl, rfl, rfl, rfl, rfl, rfl⟩
    · exact Or.inr ⟨_, rfl, rfl, rfl, rfl, rfl, rfl, rfl⟩

theorem collision_phase_over_char {s : GameState} (dt : ℚ) (hov : s.game_over = false)
    (hwn : s.won = false) (hl : 1 ≤ s.lives)
    (ht : (s.collision_phase dt).game_over = true) :
    ((s.collision_phase dt).lives = 0 ∧ (s.collision_phase dt).won = false) ∨
    ((s.collision_phase dt).won = true ∧
      (s.collision_phase dt).goals.all (fun g => g.occupied) = true) := by
  rcases collision_phase_cases s dt with
    ⟨u, hequ, hw, ho, hli, -⟩ | ⟨u, hequ, hw, ho, hli, -⟩
  · rw [hequ] at ht ⊢
    exact Or.inl (kill_frog_over_char (ho.trans hov) (hw.trans hwn) (hli ▸ hl) ht)
  · rw [hequ] at ht ⊢
    exact check_goal_over_char (ho.trans hov) (hw.trans hwn) (hli ▸ hl) ht

theorem update_over_char {s : GameState} (dt : ℚ) (hov : s.game_over = false)
    (hwn : s.won = false) (hl : 1 ≤ s.lives)
    (ht : (s.update dt).game_over = true) :
    ((s.update dt).lives = 0 ∧ (s.update dt).won = false) ∨
    ((s.update dt).won = true ∧
      (s.update dt).goals.all (fun g => g.occupied) = true) := by
  rw [update_eq_phase s dt hov] at ht ⊢
  exact collision_phase_over_char dt
    ((advanceObjects_game_over s dt).trans hov)
    ((advanceObjects_won s dt).trans hwn)
    ((advanceObjects_lives s dt).symm ▸ hl) ht

-- ===========================================================================
-- Claim theorems
-- ===========================================================================

/-- Claim C4: in every state reachable from a fresh game by move commands,
ticks, and resets, `isWon` implies `isOver`; and a step can turn `isOver` on
only by lives reaching 0 in a life-loss (with no win), or by every goal slot
becoming occupied in a claim (with a win). -/
theorem C4_win_over_paths (s t : GameState) (hs : Reachable s) :
    (s.won = true → s.game_over = true) ∧
    (Step s t → s.game_over = false → t.game_over = true →
      (t.lives = 0 ∧ t.won = false) ∨
      (t.won = true ∧ t.goals.all (fun g => g.occupied) = true)) := by
  have hInv : GameInv s := reachable_inv hs
  refine ⟨hInv.1, ?_⟩
  intro hstep hov ht
  have hwn : s.won = false := by
    cases hw : s.won
    · rfl
    · exact absurd (hInv.1 hw) (by simp [hov])
  have hl : 1 ≤ s.lives := hInv.2 hov
  cases hstep with
  | moveUp => exact absurd ht (by simp [hov])
  | moveDown => exact absurd ht (by simp [hov])
  | moveLeft => exact absurd ht (by simp [hov])
  | moveRight => exact absurd ht (by simp [hov])
  | tick dt => exact update_over_char dt hov hwn hl ht
  | reset cars logs => exact absurd ht (by simp [GameState.reset])

/-- Witness for C4: the theorem applied at a concrete fresh game. -/
theorem C4_win_over_paths_witness :
    ((GameState.new [] []).won = true → (GameState.new [] []).game_over = true) ∧
    (Step (GameState.new [] []) (GameState.new [] []) →
      (GameState.new [] []).game_over = false → (GameState.new [] []).game_over = true →
      ((GameState.new [] []).lives = 0 ∧ (GameState.new [] []).won = false) ∨
      ((GameState.new [] []).won = true ∧
        (GameState.new [] []).goals.all (fun g => g.occupied) = true)) :=
  C4_win_over_paths (GameState.new [] []) (GameState.new [] []) (Reachable.init [] [])

/-- Claim C9: when `isOver` is true, `tick(dt)` leaves the entire game state
unchanged. -/
theorem C9_update_idle (s : GameState) (dt : ℚ) (h : s.game_over = true) :
    s.update dt = s := by
  unfold GameState.update
  rw [if_pos h]

/-- Witness for C9: a concrete finished state is untouched by a tick. -/
theorem C9_update_idle_witness : overDemoState.update 1 = overDemoState :=
  C9_update_idle overDemoState 1 rfl

/-- Claim C3: life-loss decrements lives by exactly 1; if lives then equals 0
the game becomes over (lost, `won` untouched) and the actor is not reset;
otherwise only the actor is reset and everything else is untouched.  From 3
lives, three consecutive life-losses give over, not won, 0 lives. -/
theorem C3_life_loss (s : GameState) :
    ((s.kill_frog).lives = s.lives - 1)
    ∧ (1 ≤ s.lives → (s.kill_frog).lives = 0 →
        (s.kill_frog).game_over = true ∧ (s.kill_frog).won = s.won ∧
        (s.kill_frog).frog = s.frog)
    ∧ (1 ≤ s.lives → (s.kill_frog).lives ≠ 0 →
        s.kill_frog = { s with lives := s.lives - 1, frog := s.frog.reset })
    ∧ (s.lives = 3 → s.game_over = false → s.won = false →
        (s.kill_frog.kill_frog.kill_frog).game_over = true ∧
        (s.kill_frog.kill_frog.kill_frog).won = false ∧
        (s.kill_frog.kill_frog.kill_frog).lives = 0) := by
  refine ⟨kill_frog_lives s, ?_, ?_, ?_⟩
  · intro h1 h0
    rw [kill_frog_lives] at h0
    rw [kill_frog_eq, if_pos (by omega : s.lives - 1 ≤ 0)]
    exact ⟨rfl, rfl, rfl⟩
  · intro h1 hne
    rw [kill_frog_lives] at hne
    rw [kill_frog_eq, if_neg (by omega : ¬ s.lives - 1 ≤ 0)]
  · intro h3 hov hwn
    have k1 : s.kill_frog = { s with lives := s.lives - 1, frog := s.frog.reset } := by
      rw [kill_frog_eq, if_neg (by omega : ¬ s.lives - 1 ≤ 0)]
    rw [k1]
    have k2 : ({ s with lives := s.lives - 1, frog := s.frog.reset } : GameState).kill_frog
        = { s with lives := s.lives - 1 - 1, frog := s.frog.reset.reset } := by
      rw [kill_frog_eq, if_neg (by show ¬ s.lives - 1 - 1 ≤ 0; omega)]
    rw [k2]
    have k3 : ({ s with lives := s.lives - 1 - 1, frog := s.frog.reset.reset } : GameState).kill_frog
        = { s with lives := s.lives - 1 - 1 - 1, frog := s.frog.reset.reset, game_over := true } := by
      rw [kill_frog_eq, if_pos (by show s.lives - 1 - 1 - 1 ≤ 0; omega)]
    rw [k3]
    exact ⟨rfl, hwn, by show s.lives - 1 - 1 - 1 = 0; omega⟩

/-- Witness for C3: three consecutive life-losses from the fresh demo state. -/
theorem C3_life_loss_witness :
    (riverDemoState.kill_frog).lives = riverDemoState.lives - 1 ∧
    (riverDemoState.kill_frog.kill_frog.kill_frog).game_over = true ∧
    (riverDemoState.kill_frog.kill_frog.kill_frog).won = false ∧
    (riverDemoState.kill_frog.kill_frog.kill_frog).lives = 0 :=
  ⟨(C3_life_loss riverDemoState).1,
    (C3_life_loss riverDemoState).2.2.2 rfl rfl rfl⟩

/-- Claim C1: with the actor on row 0, the goal routine claims the first
unoccupied slot (in creation order) whose center is strictly within
`0.8 * CELL_SIZE` of the actor center — setting it occupied, adding exactly
100 to the score, resetting the actor, leaving lives alone — and in
particular the lower-index slot wins any tie; if no slot is eligible,
life-loss is invoked. -/
theorem C1_goal_claim (s : GameState) (h0 : s.frog.y = 0) :
    (∀ i (hi : i < s.goals.length),
        eligibleSlot (frogCenter s) (s.goals.get ⟨i, hi⟩) →
        (∀ j (hj : j < s.goals.length), j < i →
          ¬ eligibleSlot (frogCenter s) (s.goals.get ⟨j, hj⟩)) →
        (s.check_goal_reached).goals
            = s.goals.set i { s.goals.get ⟨i, hi⟩ with occupied := true } ∧
        (s.check_goal_reached).score = s.score + 100 ∧
        (s.check_goal_reached).frog = s.frog.reset ∧
        (s.check_goal_reached).lives = s.lives)
    ∧ ((∀ g ∈ s.goals, ¬ eligibleSlot (frogCenter s) g) →
        s.check_goal_reached = s.kill_frog) := by
  constructor
  · intro i hi he hmin
    have hc := claimGoals_first hi he hmin
    rw [check_goal_eq_claim s h0 hc]
    split <;> exact ⟨rfl, rfl, rfl, rfl⟩
  · intro hnone
    exact check_goal_eq_miss s h0 (claimGoals_eq_none.mpr hnone)

theorem init_goals_eq :
    init_goals = [{ x := 3, occupied := false }, { x := 6, occupied := false },
      { x := 9, occupied := false }, { x := 12, occupied := false },
      { x := 15, occupied := false }] := by decide

/-- Witness for C1: the frog straight above slot 0 claims exactly slot 0. -/
theorem C1_goal_claim_witness :
    (goalDemoState.check_goal_reached).score = goalDemoState.score + 100 ∧
    (goalDemoState.check_goal_reached).frog = goalDemoState.frog.reset ∧
    (goalDemoState.check_goal_reached).goals
      = [{ x := 3, occupied := true }, { x := 6, occupied := false },
         { x := 9, occupied := false }, { x := 12, occupied := false },
         { x := 15, occupied := false }] := by
  have hgoals : goalDemoState.goals = [{ x := 3, occupied := false }, { x := 6, occupied := false },
      { x := 9, occupied := false }, { x := 12, occupied := false },
      { x := 15, occupied := false }] := init_goals_eq
  have hlen : 0 < goalDemoState.goals.length := by rw [hgoals]; decide
  have he : eligibleSlot (frogCenter goalDemoState) (goalDemoState.goals.get ⟨0, hlen⟩) := by
    have hget : goalDemoState.goals.get ⟨0, hlen⟩ = { x := 3, occupied := false } := by
      simp [hgoals]
    rw [hget]
    refine ⟨rfl, ?_⟩
    norm_num [frogCenter, goalCenter, goalDemoState, Frog.get_pixel_x, CELL_SIZE]
  have h := (C1_goal_claim goalDemoState rfl).1 0 hlen he
    (fun j hj hj0 => absurd hj0 (Nat.not_lt_zero j))
  refine ⟨h.2.1, h.2.2.1, ?_⟩
  rw [h.1]
  simp [hgoals]

/-- Claim C6: `move_left` applies exactly when the candidate pixel X
(current minus `CELL_SIZE`) is at least 0, `move_right` exactly when the
candidate (current plus `CELL_SIZE`) is strictly below
`SCREEN_WIDTH - CELL_SIZE`; when applied while riding the offset changes by
∓`CELL_SIZE` and the column is untouched, when not riding the column changes
by ∓1 and the offset is untouched; a rejected move leaves the actor
unchanged (and no error exists). -/
theorem C6_horizontal_moves (f : Frog) :
    (0 ≤ f.get_pixel_x - (CELL_SIZE : ℚ) →
      (f.is_riding = true →
        f.move_left = { f with riding_offset := f.riding_offset - (CELL_SIZE : ℚ) }) ∧
      (f.is_riding = false → f.move_left = { f with x := f.x - 1 }))
    ∧ (¬ 0 ≤ f.get_pixel_x - (CELL_SIZE : ℚ) → f.move_left = f)
    ∧ (f.get_pixel_x + (CELL_SIZE : ℚ) < ((SCREEN_WIDTH - CELL_SIZE : Int) : ℚ) →
      (f.is_riding = true →
        f.move_right = { f with riding_offset := f.riding_offset + (CELL_SIZE : ℚ) }) ∧
      (f.is_riding = false → f.move_right = { f with x := f.x + 1 }))
    ∧ (¬ f.get_pixel_x + (CELL_SIZE : ℚ) < ((SCREEN_WIDTH - CELL_SIZE : Int) : ℚ) →
      f.move_right = f) := by
  refine ⟨?_, ?_, ?_, ?_⟩
  · intro hok
    constructor
    · intro hr
      simp only [Frog.move_left, hr]
      rw [if_pos hok]
      simp
    · intro hr
      simp only [Frog.move_left, hr]
      rw [if_pos hok]
      simp
  · intro hno
    simp only [Frog.move_left]
    rw [if_neg hno]
  · intro hok
    constructor
    · intro hr
      simp only [Frog.move_right, hr]
      rw [if_pos hok]
      simp
    · intro hr
      simp only [Frog.move_right, hr]
      rw [if_pos hok]
      simp
  · intro hno
    simp only [Frog.move_right]
    rw [if_neg hno]

/-- Witness for C6: the start-cell frog steps one column left; a frog at
column 0 cannot move further left. -/
theorem C6_horizontal_moves_witness :
    Frog.new.move_left = { Frog.new with x := Frog.new.x - 1 } ∧
    ({ Frog.new with x := 0 } : Frog).move_left = { Frog.new with x := 0 } :=
  ⟨((C6_horizontal_moves Frog.new).1 (by norm_num [Frog.new, Frog.get_pixel_x,
      FROG_START_COL, GRID_COLS, SCREEN_WIDTH, CELL_SIZE])).2 rfl,
    (C6_horizontal_moves ({ Frog.new with x := 0 } : Frog)).2.1 (by
      norm_num [Frog.new, Frog.get_pixel_x, FROG_START_COL, GRID_COLS,
        SCREEN_WIDTH, CELL_SIZE])⟩

/-- Claim C7: immediately after any `move_up`/`move_down` that changes the
row, and immediately after any actor reset — the plain reset, the reset
inside a surviving life-loss, the reset inside a goal claim, and the full
game reset — the riding offset is exactly 0. -/
theorem C7_offset_zero :
    (∀ f : Frog, (f.move_up).y ≠ f.y → (f.move_up).riding_offset = 0)
    ∧ (∀ f : Frog, (f.move_down).y ≠ f.y → (f.move_down).riding_offset = 0)
    ∧ (∀ f : Frog, (f.reset).riding_offset = 0)
    ∧ (∀ s : GameState, 2 ≤ s.lives → (s.kill_frog).frog.riding_offset = 0)
    ∧ (∀ s : GameState, ∀ cars logs : List MovingObject,
        (s.reset cars logs).frog.riding_offset = 0)
    ∧ (∀ s : GameState, s.frog.y = 0 → (s.check_goal_reached).score ≠ s.score →
        (s.check_goal_reached).frog.riding_offset = 0) := by
  refine ⟨?_, ?_, fun f => rfl, ?_, fun s cars logs => rfl, ?_⟩
  · intro f hch
    unfold Frog.move_up at *
    split at hch
    · next h1 => rw [if_pos h1]
    · exact absurd rfl hch
  · intro f hch
    unfold Frog.move_down at *
    split at hch
    · next h1 => rw [if_pos h1]
    · exact absurd rfl hch
  · intro s hl
    rw [kill_frog_eq, if_neg (by omega : ¬ s.lives - 1 ≤ 0)]
    rfl
  · intro s h0 hsc
    cases hc : claimGoals (frogCenter s) s.goals with
    | none =>
        exfalso
        apply hsc
        rw [check_goal_eq_miss s h0 hc, kill_frog_score]
    | some gs =>
        rw [check_goal_eq_claim s h0 hc]
        split <;> rfl

theorem demo_claim :
    claimGoals (frogCenter goalDemoState) goalDemoState.goals
      = some [{ x := 3, occupied := true }, { x := 6, occupied := false },
          { x := 9, occupied := false }, { x := 12, occupied := false },
          { x := 15, occupied := false }] := by
  have he : eligibleSlot (frogCenter goalDemoState) { x := 3, occupied := false } := by
    refine ⟨rfl, ?_⟩
    norm_num [frogCenter, goalCenter, goalDemoState, Frog.get_pixel_x, CELL_SIZE]
  rw [show goalDemoState.goals
      = [{ x := 3, occupied := false }, { x := 6, occupied := false },
         { x := 9, occupied := false }, { x := 12, occupied := false },
         { x := 15, occupied := false }] from init_goals_eq]
  rw [claimGoals, if_pos he]

/-- Witness for C7: concrete row-changing moves, a surviving life-loss, and a
goal claim all leave the riding offset at 0. -/
theorem C7_offset_zero_witness :
    (Frog.new.move_up).riding_offset = 0 ∧
    (((⟨10, 5, 3, true⟩ : Frog)).move_down).riding_offset = 0 ∧
    (riverDemoState.kill_frog).frog.riding_offset = 0 ∧
    (goalDemoState.check_goal_reached).frog.riding_offset = 0 := by
  have hsc : (goalDemoState.check_goal_reached).score ≠ goalDemoState.score := by
    rw [check_goal_eq_claim goalDemoState rfl demo_claim, if_neg (by decide)]
    simp [goalDemoState]
  exact ⟨C7_offset_zero.1 Frog.new (by decide),
    C7_offset_zero.2.1 (⟨10, 5, 3, true⟩ : Frog) (by decide),
    C7_offset_zero.2.2.2.1 riverDemoState (by decide),
    C7_offset_zero.2.2.2.2.2 goalDemoState rfl hsc⟩

theorem update_width (o : MovingObject) (dt : ℚ) : (o.update dt).width = o.width := by
  rcases o with ⟨x, y, w, sp, d⟩
  cases d <;> (simp only [MovingObject.update]; split <;> rfl)

theorem update_speed (o : MovingObject) (dt : ℚ) : (o.update dt).speed = o.speed := by
  rcases o with ⟨x, y, w, sp, d⟩
  cases d <;> (simp only [MovingObject.update]; split <;> rfl)

theorem update_direction (o : MovingObject) (dt : ℚ) :
    (o.update dt).direction = o.direction := by
  rcases o with ⟨x, y, w, sp, d⟩
  cases d <;> (simp only [MovingObject.update]; split <;> rfl)

theorem objectWidthPixels_nonneg {o : MovingObject} (hw : 0 ≤ o.width) :
    0 ≤ objectWidthPixels o := by
  unfold objectWidthPixels
  have h : (0 : Int) ≤ o.width * CELL_SIZE := by
    unfold CELL_SIZE
    omega
  exact_mod_cast h

theorem update_x_bounds (o : MovingObject) (dt : ℚ)
    (hs : 0 ≤ o.speed) (hw : 0 ≤ o.width) (hdt : 0 ≤ dt)
    (hlo : -objectWidthPixels o ≤ o.x) (hhi : o.x ≤ (SCREEN_WIDTH : ℚ)) :
    -objectWidthPixels o ≤ (o.update dt).x ∧ (o.update dt).x ≤ (SCREEN_WIDTH : ℚ) := by
  have hwpx : 0 ≤ objectWidthPixels o := objectWidthPixels_nonneg hw
  have hsw : (0:ℚ) ≤ (SCREEN_WIDTH : ℚ) := by norm_num [SCREEN_WIDTH]
  have hmove : 0 ≤ o.speed * dt := mul_nonneg hs hdt
  rcases o with ⟨x, y, w, sp, d⟩
  simp only [objectWidthPixels] at *
  cases d
  case Left =>
    simp only [MovingObject.update, Direction.multiplier]
    split
    · constructor <;> simp only [] <;> linarith
    · next hwrap =>
        push_neg at hwrap
        constructor <;> simp only [] <;> nlinarith
  case Right =>
    simp only [MovingObject.update, Direction.multiplier]
    split
    · constructor <;> simp only [] <;> linarith
    · next hwrap =>
        push_neg at hwrap
        constructor <;> simp only [] <;> nlinarith

theorem updateMany_bounds (dts : List ℚ) :
    ∀ o : MovingObject, 0 ≤ o.speed → 0 ≤ o.width → (∀ dt ∈ dts, 0 ≤ dt) →
    -objectWidthPixels o ≤ o.x → o.x ≤ (SCREEN_WIDTH : ℚ) →
    -objectWidthPixels (updateMany o dts) ≤ (updateMany o dts).x ∧
      (updateMany o dts).x ≤ (SCREEN_WIDTH : ℚ) := by
  induction dts with
  | nil => exact fun o _ _ _ h1 h2 => ⟨h1, h2⟩
  | cons dt rest ih =>
      intro o hs hw hd h1 h2
      have hstep := update_x_bounds o dt hs hw (hd dt (by simp)) h1 h2
      have hwidth : objectWidthPixels (o.update dt) = objectWidthPixels o := by
        unfold objectWidthPixels
        rw [update_width]
      have := ih (o.update dt) (by rw [update_speed]; exact hs)
        (by rw [update_width]; exact hw)
        (fun d hdm => hd d (by simp [hdm]))
        (by rw [hwidth]; exact hstep.1) hstep.2
      simpa [updateMany] using this

/-- Claim C5: starting inside `[-widthPixels, SCREEN_WIDTH]`, an object's `x`
stays inside that interval after any finite sequence of updates with
nonnegative `dt`; a Right-mover whose advanced position exceeds
`SCREEN_WIDTH` restarts at `-widthPixels`, and a Left-mover whose advanced
right edge is below 0 restarts at `SCREEN_WIDTH`. -/
theorem C5_wrap_bounds (o : MovingObject) (dts : List ℚ)
    (hs : 0 ≤ o.speed) (hw : 0 ≤ o.width) (hdts : ∀ dt ∈ dts, 0 ≤ dt)
    (hlo : -objectWidthPixels o ≤ o.x) (hhi : o.x ≤ (SCREEN_WIDTH : ℚ)) :
    (-objectWidthPixels (updateMany o dts) ≤ (updateMany o dts).x ∧
      (updateMany o dts).x ≤ (SCREEN_WIDTH : ℚ))
    ∧ (∀ dt : ℚ, o.direction = Direction.Right →
        o.x + o.speed * o.direction.multiplier * dt > (SCREEN_WIDTH : ℚ) →
        (o.update dt).x = -objectWidthPixels o)
    ∧ (∀ dt : ℚ, o.direction = Direction.Left →
        o.x + o.speed * o.direction.multiplier * dt + objectWidthPixels o < 0 →
        (o.update dt).x = (SCREEN_WIDTH : ℚ)) := by
  refine ⟨updateMany_bounds dts o hs hw hdts hlo hhi, ?_, ?_⟩
  · intro dt hdir hgt
    rcases o with ⟨x, y, w, sp, d⟩
    cases hdir
    simp only [MovingObject.update, Direction.multiplier] at *
    rw [if_pos hgt]
    rfl
  · intro dt hdir hlt
    rcases o with ⟨x, y, w, sp, d⟩
    cases hdir
    simp only [MovingObject.update, Direction.multiplier, objectWidthPixels] at *
    rw [if_pos hlt]

/-- Witness for C5: a concrete car stays in bounds over two updates and
wraps when it crosses the right edge. -/
theorem C5_wrap_bounds_witness :
    (-objectWidthPixels (updateMany demoCar [1, 1]) ≤ (updateMany demoCar [1, 1]).x ∧
      (updateMany demoCar [1, 1]).x ≤ (SCREEN_WIDTH : ℚ))
    ∧ (demoCar.update 1).x = -objectWidthPixels demoCar := by
  have h := C5_wrap_bounds demoCar [1, 1] (by norm_num [demoCar])
    (by norm_num [demoCar]) (by intro dt hdt; simp at hdt; simp [hdt])
    (by norm_num [demoCar, objectWidthPixels, CELL_SIZE])
    (by norm_num [demoCar, SCREEN_WIDTH])
  refine ⟨h.1, ?_⟩
  exact h.2.1 1 rfl (by norm_num [demoCar, Direction.multiplier, SCREEN_WIDTH])

/-- Claim C10: `move_up`/`move_down` never change the riding flag, so the
flag persists across a vertical move until the next tick whose non-river
branch clears it (or a reset); while it persists, an accepted horizontal
move adjusts the riding offset instead of the grid column. -/
theorem C10_riding_flag (f : Frog) (s : GameState) (dt : ℚ) :
    ((f.move_up).is_riding = f.is_riding)
    ∧ ((f.move_down).is_riding = f.is_riding)
    ∧ (s.game_over = false →
        ¬ (RIVER_START ≤ s.frog.y ∧ s.frog.y ≤ RIVER_END) →
        ¬ (ROAD_START ≤ s.frog.y ∧ s.frog.y ≤ ROAD_END) →
        (s.update dt).frog.is_riding = false)
    ∧ (f.is_riding = true → 0 ≤ f.get_pixel_x - (CELL_SIZE : ℚ) →
        (f.move_left).x = f.x ∧
        (f.move_left).riding_offset = f.riding_offset - (CELL_SIZE : ℚ)) := by
  refine ⟨?_, ?_, ?_, ?_⟩
  · unfold Frog.move_up; split <;> rfl
  · unfold Frog.move_down; split <;> rfl
  · intro hov hnr hnd
    have hRoad : ¬ (ROAD_START ≤ (s.advanceObjects dt).frog.y ∧
        (s.advanceObjects dt).frog.y ≤ ROAD_END ∧
        ((s.advanceObjects dt).cars.any
          (collidesOnRow (s.advanceObjects dt).frog.get_rect
            (s.advanceObjects dt).frog.y)) = true) := by
      rw [advanceObjects_frog]
      rintro ⟨h1, h2, -⟩
      exact hnd ⟨h1, h2⟩
    have hRiver : ¬ (RIVER_START ≤ (s.advanceObjects dt).frog.y ∧
        (s.advanceObjects dt).frog.y ≤ RIVER_END) := by
      rw [advanceObjects_frog]
      exact hnr
    rw [update_eq_phase s dt hov]
    simp only [GameState.collision_phase]
    rw [if_neg hRoad, if_neg hRiver]
    exact check_goal_riding_false _ rfl
  · intro hr hok
    simp only [Frog.move_left, hr]
    rw [if_pos hok]
    simp

/-- Witness for C10: a riding frog on safe row 6 loses the flag on the next
tick, and a riding frog's accepted left move shifts only the offset. -/
theorem C10_riding_flag_witness :
    (safeDemoState.update 1).frog.is_riding = false ∧
    ((⟨10, 5, 3, true⟩ : Frog).move_left).x = 10 ∧
    ((⟨10, 5, 3, true⟩ : Frog).move_left).riding_offset = 3 - (CELL_SIZE : ℚ) := by
  have h3 := (C10_riding_flag Frog.new safeDemoState 1).2.2.1 rfl
    (by decide) (by decide)
  have h4 := (C10_riding_flag (⟨10, 5, 3, true⟩ : Frog) safeDemoState 1).2.2.2 rfl
    (by norm_num [Frog.get_pixel_x, CELL_SIZE])
  exact ⟨h3, h4.1, h4.2⟩

theorem check_goal_outcome (s : GameState) :
    ((s.check_goal_reached).lives = s.lives ∧ (s.check_goal_reached).score = s.score) ∨
    ((s.check_goal_reached).lives = s.lives - 1 ∧ (s.check_goal_reached).score = s.score) ∨
    ((s.check_goal_reached).lives = s.lives ∧
      (s.check_goal_reached).score = s.score + 100) := by
  by_cases h0 : s.frog.y = 0
  · cases hc : claimGoals (frogCenter s) s.goals with
    | none =>
        rw [check_goal_eq_miss s h0 hc]
        exact Or.inr (Or.inl ⟨kill_frog_lives s, kill_frog_score s⟩)
    | some gs =>
        rw [check_goal_eq_claim s h0 hc]
        split
        · exact Or.inr (Or.inr ⟨rfl, rfl⟩)
        · exact Or.inr (Or.inr ⟨rfl, rfl⟩)
  · rw [check_goal_of_row_ne s h0]
    exact Or.inl ⟨rfl, rfl⟩

theorem collision_phase_outcome (s : GameState) (dt : ℚ) :
    ((s.collision_phase dt).lives = s.lives ∧ (s.collision_phase dt).score = s.score) ∨
    ((s.collision_phase dt).lives = s.lives - 1 ∧
      (s.collision_phase dt).score = s.score) ∨
    ((s.collision_phase dt).lives = s.lives ∧
      (s.collision_phase dt).score = s.score + 100) := by
  rcases collision_phase_cases s dt with
    ⟨u, hequ, -, -, hli, hsc, -⟩ | ⟨u, hequ, -, -, hli, hsc, -⟩
  · rw [hequ, kill_frog_lives, kill_frog_score, hli, hsc]
    exact Or.inr (Or.inl ⟨rfl, rfl⟩)
  · rw [hequ]
    rcases check_goal_outcome u with ⟨h1, h2⟩ | ⟨h1, h2⟩ | ⟨h1, h2⟩
    · exact Or.inl ⟨by rw [h1, hli], by rw [h2, hsc]⟩
    · exact Or.inr (Or.inl ⟨by rw [h1, hli], by rw [h2, hsc]⟩)
    · exact Or.inr (Or.inr ⟨by rw [h1, hli], by rw [h2, hsc]⟩)

theorem collision_phase_cars (s : GameState) (dt : ℚ) :
    (s.collision_phase dt).cars = s.cars := by
  rcases collision_phase_cases s dt with
    ⟨u, hequ, -, -, -, -, hcars, -⟩ | ⟨u, hequ, -, -, -, -, hcars, -⟩
  · rw [hequ, kill_frog_cars, hcars]
  · rw [hequ, check_goal_cars, hcars]

theorem collision_phase_logs (s : GameState) (dt : ℚ) :
    (s.collision_phase dt).logs = s.logs := by
  rcases collision_phase_cases s dt with
    ⟨u, hequ, -, -, -, -, -, hlogs⟩ | ⟨u, hequ, -, -, -, -, -, hlogs⟩
  · rw [hequ, kill_frog_logs, hlogs]
  · rw [hequ, check_goal_logs, hlogs]

/-- Claim C8: within a tick in the Playing state, the update factors as
object advancement followed by the collision/riding/goal phase; every car
and log ends advanced by `dt` no matter what outcome the checks produce
(so every test saw post-advance positions); and a tick produces at most one
outcome: lives drop by at most 1, score rises by at most one claim of 100,
and never both in the same tick. -/
theorem C8_tick_ordering (s : GameState) (dt : ℚ) (h : s.game_over = false) :
    s.update dt = (s.advanceObjects dt).collision_phase dt
    ∧ (s.update dt).cars = s.cars.map (fun c => c.update dt)
    ∧ (s.update dt).logs = s.logs.map (fun l => l.update dt)
    ∧ ((s.update dt).lives = s.lives ∨ (s.update dt).lives = s.lives - 1)
    ∧ ((s.update dt).score = s.score ∨ (s.update dt).score = s.score + 100)
    ∧ ¬ ((s.update dt).lives ≠ s.lives ∧ (s.update dt).score ≠ s.score) := by
  have hequ := update_eq_phase s dt h
  have houtcome := collision_phase_outcome (s.advanceObjects dt) dt
  rw [advanceObjects_lives, advanceObjects_score] at houtcome
  rw [← hequ] at houtcome
  refine ⟨hequ, ?_, ?_, ?_, ?_, ?_⟩
  · rw [hequ, collision_phase_cars, advanceObjects_cars]
  · rw [hequ, collision_phase_logs, advanceObjects_logs]
  · rcases houtcome with ⟨h1, -⟩ | ⟨h1, -⟩ | ⟨h1, -⟩
    · exact Or.inl h1
    · exact Or.inr h1
    · exact Or.inl h1
  · rcases houtcome with ⟨-, h2⟩ | ⟨-, h2⟩ | ⟨-, h2⟩
    · exact Or.inl h2
    · exact Or.inl h2
    · exact Or.inr h2
  · rintro ⟨hl, hsc⟩
    rcases houtcome with ⟨h1, h2⟩ | ⟨h1, h2⟩ | ⟨h1, h2⟩
    · exact hl h1
    · exact hsc h2
    · exact hl h1

/-- Witness for C8 at a concrete playing state on the river. -/
theorem C8_tick_ordering_witness :
    riverDemoState.update 1 = (riverDemoState.advanceObjects 1).collision_phase 1 ∧
    (riverDemoState.update 1).logs = riverDemoState.logs.map (fun l => l.update 1) ∧
    ¬ ((riverDemoState.update 1).lives ≠ riverDemoState.lives ∧
        (riverDemoState.update 1).score ≠ riverDemoState.score) := by
  have h := C8_tick_ordering riverDemoState 1 rfl
  exact ⟨h.1, h.2.2.1, h.2.2.2.2.2⟩

/-- Claim C2: on a tick with the actor on a river row (Playing state): if no
advanced platform on that row overlaps the actor's box, life-loss runs on
the advanced state; if the scan finds an overlapping platform, the actor is
marked riding and that platform's `speed * direction * dt` is added to the
riding offset, after which an effective pixel X outside `[0, SCREEN_WIDTH -
CELL_SIZE]` still means life-loss, and an in-range X means the tick ends
with just the riding drift applied. -/
theorem C2_river_tick (s : GameState) (dt : ℚ)
    (hp : s.game_over = false)
    (hr : RIVER_START ≤ s.frog.y ∧ s.frog.y ≤ RIVER_END) :
    ((s.logs.map (fun l => l.update dt)).find?
        (collidesOnRow s.frog.get_rect s.frog.y) = none →
      s.update dt = (s.advanceObjects dt).kill_frog)
    ∧ (∀ log : MovingObject,
        (s.logs.map (fun l => l.update dt)).find?
            (collidesOnRow s.frog.get_rect s.frog.y) = some log →
        ∀ s1 : GameState,
        s1 = { s.advanceObjects dt with
               frog := { s.frog with
                         is_riding := true,
                         riding_offset := s.frog.riding_offset
                                            + log.speed * log.direction.multiplier * dt } } →
        ((s1.frog.get_pixel_x < 0 ∨
            s1.frog.get_pixel_x > ((SCREEN_WIDTH - CELL_SIZE : Int) : ℚ)) →
          s.update dt = s1.kill_frog)
        ∧ (0 ≤ s1.frog.get_pixel_x ∧
            s1.frog.get_pixel_x ≤ ((SCREEN_WIDTH - CELL_SIZE : Int) : ℚ) →
          s.update dt = s1)) := by
  have hroadneg : ¬ (ROAD_START ≤ (s.advanceObjects dt).frog.y ∧
      (s.advanceObjects dt).frog.y ≤ ROAD_END ∧
      ((s.advanceObjects dt).cars.any
        (collidesOnRow (s.advanceObjects dt).frog.get_rect
          (s.advanceObjects dt).frog.y)) = true) := by
    rw [advanceObjects_frog]
    rintro ⟨h1, -, -⟩
    simp only [RIVER_START, RIVER_END] at hr
    simp only [ROAD_START] at h1
    omega
  have hrv : RIVER_START ≤ (s.advanceObjects dt).frog.y ∧
      (s.advanceObjects dt).frog.y ≤ RIVER_END := by
    rw [advanceObjects_frog]
    exact hr
  constructor
  · intro hnone
    rw [update_eq_phase s dt hp]
    simp only [GameState.collision_phase]
    rw [if_neg hroadneg, if_pos hrv]
    have hn : (s.advanceObjects dt).logs.find?
        (collidesOnRow (s.advanceObjects dt).frog.get_rect
          (s.advanceObjects dt).frog.y) = none := by
      rw [advanceObjects_logs, advanceObjects_frog]
      exact hnone
    rw [hn]
  · intro log hsome s1 hs1
    have hs : (s.advanceObjects dt).logs.find?
        (collidesOnRow (s.advanceObjects dt).frog.get_rect
          (s.advanceObjects dt).frog.y) = some log := by
      rw [advanceObjects_logs, advanceObjects_frog]
      exact hsome
    have hbase : s.update dt =
        (if s1.frog.get_pixel_x < 0 ∨
            s1.frog.get_pixel_x > ((SCREEN_WIDTH - CELL_SIZE : Int) : ℚ)
          then s1.kill_frog else s1.check_goal_reached) := by
      rw [update_eq_phase s dt hp]
      simp only [GameState.collision_phase]
      rw [if_neg hroadneg, if_pos hrv, hs]
      rw [hs1]
      rfl
    have hy1 : s1.frog.y ≠ 0 := by
      rw [hs1]
      show s.frog.y ≠ 0
      simp only [RIVER_START, RIVER_END] at hr
      omega
    constructor
    · intro hout
      rw [hbase, if_pos hout]
    · intro hin
      have hnot : ¬ (s1.frog.get_pixel_x < 0 ∨
          s1.frog.get_pixel_x > ((SCREEN_WIDTH - CELL_SIZE : Int) : ℚ)) := by
        push_neg
        exact hin
      rw [hbase, if_neg hnot]
      exact check_goal_of_row_ne s1 hy1

/-- Witness for C2: on the demo river state the frog rides the advanced log,
drifting by `speed * dt = 4`, and survives the tick. -/
theorem C2_river_tick_witness :
    riverDemoState.update (1/10) =
      { riverDemoState.advanceObjects (1/10) with
        frog := { riverDemoState.frog with
                  is_riding := true,
                  riding_offset := riverDemoState.frog.riding_offset
                                     + (demoLog.update (1/10)).speed
                                         * (demoLog.update (1/10)).direction.multiplier
                                         * (1/10) } } := by
  have hupd : demoLog.update (1/10)
      = { x := 324, y := 3, width := 5, speed := 40,
          direction := Direction.Right } := by
    simp only [demoLog, MovingObject.update, Direction.multiplier]
    norm_num [SCREEN_WIDTH, CELL_SIZE]
  have hcol : collidesOnRow riverDemoState.frog.get_rect riverDemoState.frog.y
      (demoLog.update (1/10)) = true := by
    rw [hupd]
    simp only [collidesOnRow, check_collision_recs, riverDemoState,
      MovingObject.get_rect, Frog.get_rect, Frog.get_pixel_x, Frog.get_pixel_y]
    norm_num [CELL_SIZE]
  have hfind : (riverDemoState.logs.map (fun l => l.update (1/10))).find?
      (collidesOnRow riverDemoState.frog.get_rect riverDemoState.frog.y)
      = some (demoLog.update (1/10)) := by
    show List.find? _ [demoLog.update (1/10)] = _
    rw [List.find?_cons_of_pos _ hcol]
  have h := (C2_river_tick riverDemoState (1/10) rfl (by decide)).2
      (demoLog.update (1/10)) hfind _ rfl
  apply h.2
  rw [hupd]
  constructor
  · norm_num [riverDemoState, Frog.get_pixel_x, Direction.multiplier, CELL_SIZE]
  · norm_num [riverDemoState, Frog.get_pixel_x, Direction.multiplier, CELL_SIZE,
      SCREEN_WIDTH]
